import Mathlib

/-!
Shallow embedding of the tabular data pipeline of the carbon-emission
repository (src/carbon_emission/data_prep.py, prepped.py, results.py,
main entry point in src/carbon_emission/__main__.py).

Tables are modelled as a list of column names together with a list of
rows; each row is a list of cells aligned positionally with the column
list.  A cell is `Option Val`: `none` models a pandas missing value
(NaN); numeric cells carry exact integers (the pipeline only copies
and adds numeric values — grouping sums, pivoting, joining — so an
exact numeric model of the source's floats suffices and keeps every
operation kernel-evaluable), text cells carry strings, and datetime
cells (produced by `pd.to_datetime(..., format="%Y")`) carry the year.

Host-level pandas exceptions that the spec names are modelled with the
error type `Err`: `Err.configuration` stands for the KeyError raised
when a caller asks for a column that does not exist (the spec calls
this `ConfigurationError`), `Err.malformedData` for the ValueError
raised by `astype(int)` on an unparseable year label (the spec calls
this `MalformedDataError`).
-/

/-- A single cell value: text, exact integer number (model of the
numeric values flowing through the pipeline, which are only copied and
added), or a year datetime from `pd.to_datetime(..., format="%Y")`. -/
inductive Val where
  | str (s : String)
  | num (n : ℤ)
  | date (y : ℤ)
deriving DecidableEq, Repr

/-- A cell of a table: `none` models a pandas missing value (NaN). -/
abbrev Cell := Option Val

/-- A data frame: column names plus rows of cells aligned with the
column list positionally. -/
structure Table where
  cols : List String
  rows : List (List Cell)
deriving DecidableEq, Repr

/-- Spec-level error kinds (§7 of the spec): `configuration` models the
pandas KeyError for a missing column/key, `malformedData` the ValueError
for unparseable year labels. -/
inductive Err where
  | configuration
  | malformedData
deriving DecidableEq, Repr

deriving instance DecidableEq for Except

/-- Look up the cell of row `r` under the first column named `c`,
walking the column list and the row in lockstep (`df["c"]` on a row).
Returns `none` when the column is absent or the row is too short. -/
def cellOf : List String → List Cell → String → Cell
  | [], _, _ => none
  | _, [], _ => none
  | c' :: cs, x :: xs, c => if c' = c then x else cellOf cs xs c

/-- Numeric content of a cell; a missing or non-numeric cell contributes
0, matching the NaN-skipping behaviour of a pandas `sum`. -/
def numOf : Cell → ℤ
  | some (Val.num n) => n
  | _ => 0

/-- Python string membership `needle in hay`: contiguous substring test. -/
def pyInStr (needle hay : String) : Bool :=
  decide (needle.data <:+: hay.data)

/-- The argument `columns_to_exclude` of `DataPrep.delete_columns`: the
caller passes either a list of column names (membership test) or a bare
string (Python `in` then means substring test); both occur in
`__main__.main`. -/
inductive Excl where
  | names (cs : List String)
  | text (s : String)

/-- Python `col in columns_to_exclude` for the two caller shapes. -/
def Excl.mem (e : Excl) (c : String) : Bool :=
  match e with
  | .names cs => cs.contains c
  | .text s => pyInStr c s

/-- DataPrep.delete_columns — `df[[col for col in df.columns if col not
in columns_to_exclude]]`: keep exactly the columns whose name is not a
member of `columns_to_exclude` (list membership or substring test,
depending on the runtime type of the argument), preserving order. -/
def delete_columns (e : Excl) (t : Table) : Table :=
  { cols := t.cols.filter (fun c => !e.mem c),
    rows := t.rows.map (fun r =>
      ((t.cols.zip r).filter (fun p => !e.mem p.1)).map (fun p => p.2)) }

/-- DataPrep.drop_null — `self.df.dropna(subset=["GeoName"])`: drop the
rows whose GeoName cell is missing.  When the GeoName column is absent
pandas raises KeyError, modelled as `Err.configuration`. -/
def drop_null (t : Table) : Except Err Table :=
  if "GeoName" ∈ t.cols then
    .ok { cols := t.cols,
          rows := t.rows.filter (fun r => (cellOf t.cols r "GeoName").isSome) }
  else
    .error Err.configuration

/-- DataPrep.filter_co2 — keeps rows whose state-name is one of the
boundary-reference names (`isin(self.usa_map["name"])`), then drops the
"All Fuels" aggregate rows, then drops the all-sectors aggregate rows.
The boundary-reference name list is the external GeoJSON resource,
passed here as `names`. -/
def filter_co2 (names : List String) (t : Table) : Table :=
  let t1 : Table :=
    { cols := t.cols,
      rows := t.rows.filter (fun r =>
        match cellOf t.cols r "state-name" with
        | some (Val.str s) => names.contains s
        | _ => false) }
  let t2 : Table :=
    { cols := t1.cols,
      rows := t1.rows.filter (fun r =>
        decide (cellOf t1.cols r "fuel-name" ≠ some (Val.str "All Fuels"))) }
  { cols := t2.cols,
    rows := t2.rows.filter (fun r =>
      decide (cellOf t2.cols r "sector-name"
        ≠ some (Val.str "Total carbon dioxide emissions from all sectors"))) }

/-- First-seen deduplication with an accumulator of already-seen keys;
`uniq l = uniqAux [] l` keeps the first occurrence of each element in
order.  This is the set of distinct group keys / pivot labels in the
order pandas first encounters them. -/
def uniqAux [DecidableEq α] (seen : List α) : List α → List α
  | [] => []
  | a :: as => if a ∈ seen then uniqAux seen as else a :: uniqAux (a :: seen) as

/-- Distinct elements of a list, first occurrences kept in order. -/
def uniq [DecidableEq α] (l : List α) : List α := uniqAux [] l

/-- The tuple of group-key cells of a row. -/
def keyOf (t : Table) (ks : List String) (r : List Cell) : List Cell :=
  ks.map (cellOf t.cols r)

/-- The pandas idiom `df.groupby(ks).agg({v: "sum"}).reset_index()` used
by DataPrep.co2_groupby_year / co2_groupby_sector / co2_groupby_fuel and
inside DataPrep.gdp_co2: rows whose key cells contain a missing value
are dropped (groupby's default `dropna=True`), and for each distinct key
tuple the `v` cells of its rows are summed; the result has the key
columns followed by the aggregated column. -/
def groupbySum (t : Table) (ks : List String) (v : String) : Table :=
  let valid := t.rows.filter (fun r => ks.all (fun c => (cellOf t.cols r c).isSome))
  let keys := uniq (valid.map (keyOf t ks))
  { cols := ks ++ [v],
    rows := keys.map (fun k =>
      k ++ [some (Val.num (((valid.filter (fun r => decide (keyOf t ks r = k))).map
        (fun r => numOf (cellOf t.cols r v))).sum))]) }

/-- DataPrep.co2_groupby_year: group by (period, state-name), sum value. -/
def co2_groupby_year (t : Table) : Table :=
  groupbySum t ["period", "state-name"] "value"

/-- The non-id columns of the wide GDP table, with their positions:
`pd.melt(df, id_vars=["GeoName"], ...)` treats every column not named
GeoName as a value (year) column, in frame order. -/
def valueCols (t : Table) : List (ℕ × String) :=
  t.cols.enum.filter (fun p => decide (p.2 ≠ "GeoName"))

/-- The long rows produced by `pd.melt(df, id_vars=["GeoName"],
var_name="Year", value_name="GDP")`: for each value column (outer) and
each input row (inner), a row [GeoName cell, column label, cell]. -/
def meltRows (t : Table) : List (List Cell) :=
  (valueCols t).flatMap (fun p =>
    t.rows.map (fun r =>
      [cellOf t.cols r "GeoName", some (Val.str p.2), r.getD p.1 none]))

/-- Digit-string accumulator for the model of Python `int()`:
consumes decimal digits, failing on any other character. -/
def parseDigitsAux : List Char → ℕ → Option ℕ
  | [], acc => some acc
  | c :: cs, acc =>
    if c.isDigit then parseDigitsAux cs (10 * acc + (c.toNat - '0'.toNat)) else none

/-- Model of Python `int(s)` on a column label (what `astype(int)`
applies to each melted year label): an optional minus sign followed by
at least one decimal digit. -/
def pyInt (s : String) : Option ℤ :=
  match s.data with
  | '-' :: c :: cs => (parseDigitsAux (c :: cs) 0).map (fun n => -(n : ℤ))
  | c :: cs => (parseDigitsAux (c :: cs) 0).map (fun n => (n : ℤ))
  | [] => none

/-- The `astype(int)` step of DataPrep.gdp_reshape applied to one long
row: parse the Year label; `none` models the ValueError on an
unparseable label. -/
def parseYearRow (r : List Cell) : Option (List Cell) :=
  match r with
  | [g, some (Val.str s), v] => (pyInt s).map (fun i => [g, some (Val.num i), v])
  | _ => none

/-- DataPrep.gdp_reshape — melt the wide table on id GeoName then cast
the Year column to int.  A missing GeoName column is the pandas KeyError
(ConfigurationError); an unparseable year label among the melted cells
is the ValueError of `astype(int)` (MalformedDataError). -/
def gdp_reshape (t : Table) : Except Err Table :=
  if "GeoName" ∈ t.cols then
    match (meltRows t).mapM parseYearRow with
    | some rs => .ok { cols := ["GeoName", "Year", "GDP"], rows := rs }
    | none => .error Err.malformedData
  else .error Err.configuration

/-- Column label for a pivoted category cell (sector names are strings
in the data; the other shapes are rendered for completeness). -/
def cellLabel : Cell → String
  | some (Val.str s) => s
  | some (Val.num q) => toString q
  | some (Val.date y) => toString y
  | none => ""

/-- The pivot step of DataPrep.gdp_co2 —
`grouped.pivot(index=["period","state-name"], columns="sector-name",
values="value").reset_index()`: one row per distinct (period,
state-name) pair, one column per distinct sector, cell = the value of
the (unique, since the input is grouped) matching row. -/
def pivotEmissions (g : Table) : Table :=
  let idxs := uniq (g.rows.map (fun r =>
    [cellOf g.cols r "period", cellOf g.cols r "state-name"]))
  let secs := uniq (g.rows.map (fun r => cellOf g.cols r "sector-name"))
  { cols := ["period", "state-name"] ++ secs.map cellLabel,
    rows := idxs.map (fun k => k ++ secs.map (fun s =>
      match g.rows.find? (fun r => decide
          ([cellOf g.cols r "period", cellOf g.cols r "state-name"] = k
            ∧ cellOf g.cols r "sector-name" = s)) with
      | some r => cellOf g.cols r "value"
      | none => none)) }

/-- The grouped-and-pivoted emissions table built inside
DataPrep.gdp_co2 before the merge. -/
def emissionsPivot (t : Table) : Table :=
  pivotEmissions (groupbySum t ["period", "state-name", "sector-name"] "value")

/-- The `pd.merge(left, right, how="left", left_on=lk, right_on=rk)`
relational left outer join: for each left row in order, the matching
right rows (equal key tuples) produce concatenated rows; a left row
with no match is kept once, padded with missing cells for every right
column. -/
def leftJoin (L R : Table) (lk rk : List String) : Table :=
  { cols := L.cols ++ R.cols,
    rows := L.rows.flatMap (fun lr =>
      let ms := R.rows.filter (fun rr =>
        decide (lk.map (cellOf L.cols lr) = rk.map (cellOf R.cols rr)))
      if ms.isEmpty then [lr ++ R.cols.map (fun _ => none)]
      else ms.map (fun rr => lr ++ rr)) }

/-- DataPrep.gdp_co2 — group the emissions by (period, state-name,
sector-name) summing value, pivot the sectors to columns, then left
join with the long GDP table on (state-name, period) = (GeoName, Year). -/
def gdp_co2 (t gdp : Table) : Table :=
  leftJoin (emissionsPivot t) gdp ["state-name", "period"] ["GeoName", "Year"]

/-- Outcome of one yearly request of APIReader.get_data: an OK response
carrying the page's rows, a non-OK HTTP status (the `response.ok` False
branch), or a raised exception (the HTTPError / generic except branch). -/
inductive FetchOutcome where
  | ok (rows : List (List Cell))
  | badStatus
  | raisedError
deriving DecidableEq, Repr

/-- Whether a fetch outcome is an OK response. -/
def FetchOutcome.isOk : FetchOutcome → Bool
  | .ok _ => true
  | _ => false

/-- Python `x or d` for the optional integer arguments of get_data:
None and 0 are both falsy and replaced by the default. -/
def pyOrInt (x : Option ℤ) (d : ℤ) : ℤ :=
  match x with
  | some v => if v = 0 then d else v
  | none => d

/-- Python `range(s, e)` over integers. -/
def intRange (s e : ℤ) : List ℤ :=
  (List.range (e - s).toNat).map (fun i : ℕ => s + (i : ℤ))

/-- The fetch loop of APIReader.get_data: request each year in turn,
concatenating page rows into the accumulator; on the first non-OK
response or raised error return `none` (the bare Python `return`),
discarding the accumulator.  The second component is the trace of years
actually requested. -/
def getDataLoop (fetch : ℤ → FetchOutcome) :
    List ℤ → List (List Cell) → Option (List (List Cell)) × List ℤ
  | [], acc => (some acc, [])
  | y :: ys, acc =>
    match fetch y with
    | .ok rows =>
      let p := getDataLoop fetch ys (acc ++ rows)
      (p.1, y :: p.2)
    | _ => (none, [y])

/-- APIReader.get_data — fetch the years `range(start or 2017, end or
2022)` sequentially; any failing page makes the whole call return
nothing.  The HTTP transport is the external collaborator `fetch`. -/
def get_data (fetch : ℤ → FetchOutcome) (start stop : Option ℤ) :
    Option (List (List Cell)) × List ℤ :=
  getDataLoop fetch (intRange (pyOrInt start 2017) (pyOrInt stop 2022)) []

/-- Model of `pd.to_datetime(x, format="%Y")` on one cell: a year
number or a year-formatted string becomes a datetime cell. -/
def toDatetimeY : Cell → Cell
  | some (Val.num n) => some (Val.date n)
  | some (Val.str s) => (s.toInt?).map (fun i => Val.date i)
  | some (Val.date y) => some (Val.date y)
  | none => none

/-- One row after the in-place assignment `self.df["period"] =
pd.to_datetime(self.df["period"], format="%Y")` of Prepped.value_time:
the cells under a column named period are converted, the others kept. -/
def mapPeriodRow : List String → List Cell → List Cell
  | c :: cs, x :: xs => (if c = "period" then toDatetimeY x else x) :: mapPeriodRow cs xs
  | _, _ => []

/-- Contents of the table object passed to Prepped.value_time after the
call returns: the method overwrites the period column of the shared
DataFrame in place (its other steps work on fresh frames). -/
def value_time_obs (t : Table) : Table :=
  { cols := t.cols, rows := t.rows.map (mapPeriodRow t.cols) }

/-- Contents of the table object passed to
ModelBuilder.state_fuel_cluster after the call returns: the method
executes `df["Cluster"] = clusters` on the shared DataFrame, appending
a Cluster column with the labels `ls` computed by the clusterer. -/
def state_fuel_cluster_obs (ls : List ℤ) (t : Table) : Table :=
  { cols := t.cols ++ ["Cluster"],
    rows := List.zipWith (fun r l => r ++ [some (Val.num l)]) t.rows ls }

/-- All cells of a table under column `c`, top to bottom. -/
def colCells (t : Table) (c : String) : List Cell :=
  t.rows.map (fun r => cellOf t.cols r c)

/-- Arithmetic mean of a list of reals (0 for the empty list, by the
division-by-zero convention). -/
noncomputable def listMean (xs : List ℝ) : ℝ :=
  xs.sum / (xs.length : ℝ)

/-- Population variance of a list of reals, the quantity StandardScaler
divides by (sklearn uses ddof = 0). -/
noncomputable def listVar (xs : List ℝ) : ℝ :=
  ((xs.map (fun x => (x - listMean xs) ^ 2)).sum) / (xs.length : ℝ)

/-- StandardScaler's transform of one feature column:
`(x - mean) / sqrt(variance)`.  For a zero-variance column the Lean
division-by-zero convention makes every entry `(x - mean) / 0 = 0`,
which coincides with sklearn's guard that replaces a zero scale by 1
(the centered entries are then all zero as well). -/
noncomputable def standardize (xs : List ℝ) : List ℝ :=
  xs.map (fun x => (x - listMean xs) / Real.sqrt (listVar xs))

/-- Column `j` of a row-major matrix (absent entries read as 0). -/
def colAt (m : List (List ℝ)) (j : ℕ) : List ℝ :=
  m.map (fun r => r.getD j 0)

/-- The scaled value of one entry of column `j` under StandardScaler
fitted on matrix `m`. -/
noncomputable def scaleEntry (m : List (List ℝ)) (j : ℕ) (x : ℝ) : ℝ :=
  (x - listMean (colAt m j)) / Real.sqrt (listVar (colAt m j))

/-- `StandardScaler().fit_transform(m)`: scale every entry by the mean
and standard deviation of its column. -/
noncomputable def fitTransform (m : List (List ℝ)) : List (List ℝ) :=
  m.map (fun r => (List.range r.length).map (fun j => scaleEntry m j (r.getD j 0)))

/-- The numeric feature frame fed to ModelBuilder.state_fuel_cluster
(the pivoted state-by-fuel table): column names plus row-major real
entries. -/
structure FrameR where
  cols : List String
  rows : List (List ℝ)

/-- ModelBuilder.state_fuel_cluster — take the columns from position 2
on (`df.iloc[:, 2:]`), standardize them with StandardScaler, run the
agglomerative clusterer with `n_clusters = 5`, and append the labels as
a Cluster column (in place, `df["Cluster"] = clusters`).  The sklearn
clusterer is the external collaborator `fitPredict`, taking the number
of clusters and the scaled data. -/
noncomputable def state_fuel_cluster
    (fitPredict : ℕ → List (List ℝ) → List ℕ) (t : FrameR) : FrameR :=
  let data := t.rows.map (List.drop 2)
  let scaled := fitTransform data
  let clusters := fitPredict 5 scaled
  { cols := t.cols ++ ["Cluster"],
    rows := List.zipWith (fun r (c : ℕ) => r ++ [(c : ℝ)]) t.rows clusters }

/-- The two-row emissions table of the spec's group-sum scenario. -/
def tOhio2 : Table :=
  { cols := ["period", "state-name", "sector-name", "fuel-name", "value"],
    rows := [[some (.num 2020), some (.str "Ohio"), some (.str "Residential"),
              some (.str "Coal"), some (.num 5)],
             [some (.num 2020), some (.str "Ohio"), some (.str "Residential"),
              some (.str "Coal"), some (.num 3)]] }

/-- The two-state wide GDP table of the spec's melt scenario (after the
Description column has been deleted, as in the main pipeline). -/
def tCalTex : Table :=
  { cols := ["GeoName", "2017", "2018"],
    rows := [[some (.str "California"), some (.num 100), some (.num 110)],
             [some (.str "Texas"), some (.num 90), some (.num 95)]] }

/-- A wide table whose id values repeat (two California rows). -/
def tDupId : Table :=
  { cols := ["GeoName", "2017"],
    rows := [[some (.str "California"), some (.num 1)],
             [some (.str "California"), some (.num 2)]] }

/-- A wide table with an unparseable year label but no rows. -/
def tEmptyBad : Table := { cols := ["GeoName", "abc"], rows := [] }

/-- A wide table with an unparseable year label and no GeoName column. -/
def tNoGeo : Table := { cols := ["abc"], rows := [[some (.num 1)]] }

/-- A nonempty wide table with an unparseable year label. -/
def tBadLabel : Table :=
  { cols := ["GeoName", "abc"],
    rows := [[some (.str "Ohio"), some (.num 1)]] }

/-- A one-row grouped emissions table for the join example. -/
def tEmOhio : Table :=
  { cols := ["period", "state-name", "sector-name", "value"],
    rows := [[some (.num 2020), some (.str "Ohio"), some (.str "Residential"),
              some (.num 5)]] }

/-- A GDP table whose only row is for a different state. -/
def tGdpTex : Table :=
  { cols := ["GeoName", "Year", "GDP"],
    rows := [[some (.str "Texas"), some (.num 2020), some (.num 7)]] }

/-- An emissions table exercising all three filters of filter_co2. -/
def tCo2Mix : Table :=
  { cols := ["period", "state-name", "sector-name", "fuel-name", "value"],
    rows := [[some (.num 2020), some (.str "Ohio"), some (.str "Residential"),
              some (.str "Coal"), some (.num 5)],
             [some (.num 2020), some (.str "Ohio"), some (.str "Residential"),
              some (.str "All Fuels"), some (.num 9)],
             [some (.num 2020), some (.str "Ohio"),
              some (.str "Total carbon dioxide emissions from all sectors"),
              some (.str "Coal"), some (.num 9)],
             [some (.num 2020), some (.str "Atlantis"), some (.str "Residential"),
              some (.str "Coal"), some (.num 9)]] }

/-- A GDP table with one null GeoName row. -/
def tNullGeo : Table :=
  { cols := ["GeoName", "2017"],
    rows := [[some (.str "Ohio"), some (.num 1)],
             [none, some (.num 2)]] }

/-- A table without a GeoName column. -/
def tNoGeoCol : Table :=
  { cols := ["period", "value"],
    rows := [[some (.num 2020), some (.num 5)]] }

/-- A transport collaborator whose 2018 page returns a non-OK status. -/
def fetchEx : ℤ → FetchOutcome :=
  fun y => if y = 2018 then .badStatus else .ok [[some (.num 1)]]

/-- A one-row emissions table with an integer period, for the
value_time mutation observation. -/
def tPeriod : Table :=
  { cols := ["period", "value"],
    rows := [[some (.num 2020), some (.num 5)]] }

/-- A table with a column whose name is a proper substring of
"Description". -/
def tDesc : Table :=
  { cols := ["Desc", "GeoName"],
    rows := [[some (.str "x"), some (.str "Ohio")]] }

/-- Feature frame for the clustering example: two id columns and two
feature columns, each feature column with positive variance. -/
noncomputable def frameEx : FrameR :=
  { cols := ["state-name", "Coal", "Natural Gas", "Petroleum"],
    rows := [[0, 0, 0, 2], [1, 1, 2, 0]] }

/-- Feature frame whose first feature column is constant. -/
noncomputable def frameConst : FrameR :=
  { cols := ["state-name", "extra", "Coal", "Petroleum"],
    rows := [[0, 0, 1, 0], [1, 1, 1, 2]] }

/-- A clusterer satisfying the sklearn fit_predict contract: one label
per row, every label below the requested number of clusters. -/
def fpEx : ℕ → List (List ℝ) → List ℕ :=
  fun _ d => d.map (fun _ => 0)

lemma mem_uniqAux [DecidableEq α] (seen l : List α) (a : α) :
    a ∈ uniqAux seen l ↔ a ∈ l ∧ a ∉ seen := by
  induction l generalizing seen with
  | nil => simp [uniqAux]
  | cons b bs ih =>
    simp only [uniqAux]
    by_cases hb : b ∈ seen
    · rw [if_pos hb, ih]
      constructor
      · rintro ⟨h1, h2⟩
        exact ⟨List.mem_cons_of_mem _ h1, h2⟩
      · rintro ⟨h1, h2⟩
        rcases List.mem_cons.mp h1 with h | h
        · exact absurd (h ▸ hb) h2
        · exact ⟨h, h2⟩
    · rw [if_neg hb]
      simp only [List.mem_cons, ih]
      constructor
      · rintro (h | ⟨h1, h2⟩)
        · exact ⟨Or.inl h, h ▸ hb⟩
        · exact ⟨Or.inr h1, fun hs => h2 (Or.inr hs)⟩
      · rintro ⟨h | h, h2⟩
        · exact Or.inl h
        · by_cases hab : a = b
          · exact Or.inl hab
          · exact Or.inr ⟨h, fun hs => hs.elim hab h2⟩

lemma mem_uniq [DecidableEq α] (l : List α) (a : α) : a ∈ uniq l ↔ a ∈ l := by
  rw [uniq, mem_uniqAux]
  simp

lemma nodup_uniqAux [DecidableEq α] (seen l : List α) : (uniqAux seen l).Nodup := by
  induction l generalizing seen with
  | nil => simp [uniqAux]
  | cons b bs ih =>
    simp only [uniqAux]
    split
    · exact ih _
    · rw [List.nodup_cons]
      refine ⟨fun hmem => ?_, ih _⟩
      rw [mem_uniqAux] at hmem
      exact hmem.2 (List.mem_cons_self _ _)

lemma nodup_uniq [DecidableEq α] (l : List α) : (uniq l).Nodup := nodup_uniqAux [] l

/-- Claim C5: after the emissions filtering step (filter_co2), every
row satisfies fuel_name ≠ "All Fuels" and sector_name ≠ "Total carbon
dioxide emissions from all sectors", and every state name in the
result is one of the US-state boundary reference names. -/
theorem filter_co2_invariant (names : List String) (t : Table) :
    ∀ r ∈ (filter_co2 names t).rows,
      cellOf t.cols r "fuel-name" ≠ some (Val.str "All Fuels")
      ∧ cellOf t.cols r "sector-name"
          ≠ some (Val.str "Total carbon dioxide emissions from all sectors")
      ∧ ∃ s ∈ names, cellOf t.cols r "state-name" = some (Val.str s) := by
  intro r hr
  simp only [filter_co2, List.mem_filter] at hr
  obtain ⟨⟨⟨hmem, hstate⟩, hfuel⟩, hsec⟩ := hr
  refine ⟨by simpa using hfuel, by simpa using hsec, ?_⟩
  rcases hcell : cellOf t.cols r "state-name" with _ | v
  · rw [hcell] at hstate
    simp at hstate
  · rw [hcell] at hstate
    cases v with
    | str s => exact ⟨s, by simpa using hstate, rfl⟩
    | num q => simp at hstate
    | date y => simp at hstate

/-- Witness for C5 at a concrete table and row. -/
theorem filter_co2_invariant_witness :
    cellOf tCo2Mix.cols
        [some (.num 2020), some (.str "Ohio"), some (.str "Residential"),
         some (.str "Coal"), some (.num 5)] "fuel-name" ≠ some (Val.str "All Fuels")
    ∧ cellOf tCo2Mix.cols
        [some (.num 2020), some (.str "Ohio"), some (.str "Residential"),
         some (.str "Coal"), some (.num 5)] "sector-name"
        ≠ some (Val.str "Total carbon dioxide emissions from all sectors")
    ∧ ∃ s ∈ ["Ohio"], cellOf tCo2Mix.cols
        [some (.num 2020), some (.str "Ohio"), some (.str "Residential"),
         some (.str "Coal"), some (.num 5)] "state-name" = some (Val.str s) :=
  filter_co2_invariant ["Ohio"] tCo2Mix _ (by decide)

/-- Claim C6: drop_null removes exactly the rows whose GeoName cell is
missing (keeping the others in order), and on a table without a GeoName
column it signals the configuration error instead of silently doing
nothing. -/
theorem drop_null_spec (t : Table) :
    ("GeoName" ∈ t.cols →
      ∃ u, drop_null t = .ok u ∧ u.cols = t.cols ∧ u.rows.Sublist t.rows
        ∧ ∀ r ∈ t.rows, (r ∈ u.rows ↔ (cellOf t.cols r "GeoName").isSome = true))
    ∧ ("GeoName" ∉ t.cols → drop_null t = .error Err.configuration) := by
  constructor
  · intro hg
    refine ⟨{ cols := t.cols,
              rows := t.rows.filter (fun r => (cellOf t.cols r "GeoName").isSome) },
            ?_, rfl, List.filter_sublist _, ?_⟩
    · rw [drop_null, if_pos hg]
    · intro r hr
      constructor
      · intro hru
        exact (List.mem_filter.mp hru).2
      · intro hs
        exact List.mem_filter.mpr ⟨hr, hs⟩
  · intro hg
    rw [drop_null, if_neg hg]

/-- Witness for C6: a table with one null GeoName row, and a table
missing the column. -/
theorem drop_null_spec_witness :
    (∃ u, drop_null tNullGeo = .ok u ∧ u.cols = tNullGeo.cols
      ∧ u.rows.Sublist tNullGeo.rows
      ∧ ∀ r ∈ tNullGeo.rows,
          (r ∈ u.rows ↔ (cellOf tNullGeo.cols r "GeoName").isSome = true))
    ∧ drop_null tNoGeoCol = .error Err.configuration :=
  ⟨(drop_null_spec tNullGeo).1 (by decide), (drop_null_spec tNoGeoCol).2 (by decide)⟩

/-- Claim C10: with a string argument, delete_columns removes every
column whose name is a substring of that string (Python membership), as
the concrete "Desc" vs "Description" instance shows; with a list
argument it removes exactly the listed names, ignoring unknown ones,
and the remaining columns keep their relative order. -/
theorem delete_columns_spec :
    (∀ (t : Table) (s c : String),
        c ∈ (delete_columns (.text s) t).cols ↔ c ∈ t.cols ∧ pyInStr c s = false)
    ∧ (∀ (t : Table) (cs : List String) (c : String),
        c ∈ (delete_columns (.names cs) t).cols ↔ c ∈ t.cols ∧ c ∉ cs)
    ∧ (∀ (e : Excl) (t : Table), (delete_columns e t).cols.Sublist t.cols)
    ∧ ("Desc" ∉ (delete_columns (.text "Description") tDesc).cols
        ∧ "GeoName" ∈ (delete_columns (.text "Description") tDesc).cols
        ∧ (delete_columns (.text "Description") tDesc).rows
            = [[some (Val.str "Ohio")]]) := by
  refine ⟨?_, ?_, ?_, by decide⟩
  · intro t s c
    simp [delete_columns, List.mem_filter, Excl.mem]
  · intro t cs c
    simp [delete_columns, List.mem_filter, Excl.mem]
  · intro e t
    exact List.filter_sublist _

lemma getDataLoop_fail (fetch : ℤ → FetchOutcome) :
    ∀ (ys : List ℤ) (acc : List (List Cell)) (y : ℤ),
      y ∈ ys → (fetch y).isOk = false → (getDataLoop fetch ys acc).1 = none := by
  intro ys
  induction ys with
  | nil =>
    intro acc y h
    simp at h
  | cons a as ih =>
    intro acc y hy hfail
    rcases List.mem_cons.mp hy with h | h
    · subst h
      rcases hout : fetch y with rows | _ | _
      · rw [hout] at hfail
        simp [FetchOutcome.isOk] at hfail
      · simp [getDataLoop, hout]
      · simp [getDataLoop, hout]
    · rcases hout : fetch a with rows | _ | _
      · simpa [getDataLoop, hout] using ih (acc ++ rows) y h hfail
      · simp [getDataLoop, hout]
      · simp [getDataLoop, hout]

lemma getDataLoop_trace_sublist (fetch : ℤ → FetchOutcome) :
    ∀ (ys : List ℤ) (acc : List (List Cell)),
      (getDataLoop fetch ys acc).2.Sublist ys := by
  intro ys
  induction ys with
  | nil =>
    intro acc
    simp [getDataLoop]
  | cons a as ih =>
    intro acc
    rcases hout : fetch a with rows | _ | _
    · simpa [getDataLoop, hout] using List.Sublist.cons₂ a (ih (acc ++ rows))
    · simp only [getDataLoop, hout]
      exact List.Sublist.cons₂ a (List.nil_sublist as)
    · simp only [getDataLoop, hout]
      exact List.Sublist.cons₂ a (List.nil_sublist as)

lemma nodup_intRange (s e : ℤ) : (intRange s e).Nodup := by
  unfold intRange
  refine List.Nodup.map ?_ (List.nodup_range _)
  intro a b h
  have h2 : (a : ℤ) = (b : ℤ) := by
    have := add_left_cancel h
    exact_mod_cast this
  exact_mod_cast h2

/-- Claim C7: if fetching any single year page of the requested range
fails (non-OK status or raised error), get_data returns nothing — no
combined table and no partial result — and the trace of requested
years never repeats a year (no retry). -/
theorem get_data_abort (fetch : ℤ → FetchOutcome) (start stop : Option ℤ) (y : ℤ)
    (hy : y ∈ intRange (pyOrInt start 2017) (pyOrInt stop 2022))
    (hfail : (fetch y).isOk = false) :
    (get_data fetch start stop).1 = none ∧ (get_data fetch start stop).2.Nodup := by
  constructor
  · exact getDataLoop_fail fetch _ [] y hy hfail
  · exact List.Nodup.sublist (getDataLoop_trace_sublist fetch _ [])
      (nodup_intRange _ _)

/-- Witness for C7 at a transport whose 2018 page fails. -/
theorem get_data_abort_witness :
    (get_data fetchEx none none).1 = none ∧ (get_data fetchEx none none).2.Nodup :=
  get_data_abort fetchEx none none 2018 (by decide) (by decide)

/-- Claim C2: grouping by a tuple of key columns and aggregating the
value column produces one output row per distinct key tuple (the key
list is duplicate-free and exhausts the tuples occurring in the input),
each tuple paired with the sum of the value cells over all rows sharing
it; on the spec's two Ohio Residential Coal rows (values 5 and 3) the
result is the single row (2020, Ohio, Residential, 8).  The hypothesis
says the key cells are present, as the emission data model guarantees
(pandas groupby drops null-keyed rows). -/
theorem groupbySum_claim (t : Table) (ks : List String) (v : String)
    (hnn : ∀ r ∈ t.rows, ∀ c ∈ ks, (cellOf t.cols r c).isSome = true) :
    (groupbySum t ks v).rows.length = (uniq (t.rows.map (keyOf t ks))).length
    ∧ (uniq (t.rows.map (keyOf t ks))).Nodup
    ∧ (∀ k, k ∈ uniq (t.rows.map (keyOf t ks)) ↔ k ∈ t.rows.map (keyOf t ks))
    ∧ (∀ r ∈ t.rows,
        keyOf t ks r
          ++ [some (Val.num (((t.rows.filter
                (fun r2 => decide (keyOf t ks r2 = keyOf t ks r))).map
              (fun r2 => numOf (cellOf t.cols r2 v))).sum))]
          ∈ (groupbySum t ks v).rows)
    ∧ groupbySum tOhio2 ["period", "state-name", "sector-name"] "value"
        = { cols := ["period", "state-name", "sector-name", "value"],
            rows := [[some (.num 2020), some (.str "Ohio"), some (.str "Residential"),
                      some (.num 8)]] } := by
  have hvalid :
      t.rows.filter (fun r => ks.all (fun c => (cellOf t.cols r c).isSome)) = t.rows := by
    rw [List.filter_eq_self]
    intro r hr
    rw [List.all_eq_true]
    intro c hc
    exact hnn r hr c hc
  refine ⟨?_, nodup_uniq _, fun k => mem_uniq _ _, ?_, by decide⟩
  · simp [groupbySum, hvalid]
  · intro r hr
    simp only [groupbySum, hvalid]
    refine List.mem_map.mpr ⟨keyOf t ks r, ?_, rfl⟩
    rw [mem_uniq]
    exact List.mem_map_of_mem _ hr

/-- Witness for C2 at the spec's two-row Ohio table. -/
theorem groupbySum_claim_witness :
    (groupbySum tOhio2 ["period", "state-name", "sector-name"] "value").rows.length
      = (uniq (tOhio2.rows.map
          (keyOf tOhio2 ["period", "state-name", "sector-name"]))).length :=
  (groupbySum_claim tOhio2 ["period", "state-name", "sector-name"] "value" (by decide)).1

lemma sum_map_ones {α : Type} (l : List α) (f : α → ℕ) (h : ∀ a ∈ l, f a = 1) :
    (l.map f).sum = l.length := by
  induction l with
  | nil => simp
  | cons a as ih =>
    simp only [List.map_cons, List.sum_cons, List.length_cons]
    rw [h a (List.mem_cons_self _ _), ih (fun b hb => h b (List.mem_cons_of_mem _ hb))]
    omega

lemma filter_eq_key_length_le_one {α κ : Type} [DecidableEq κ] (key : α → κ)
    (l : List α) (h : (l.map key).Nodup) (c : κ) :
    (l.filter (fun a => decide (c = key a))).length ≤ 1 := by
  induction l with
  | nil => simp
  | cons a as ih =>
    simp only [List.map_cons, List.nodup_cons] at h
    obtain ⟨ha, has⟩ := h
    rw [List.filter_cons]
    by_cases hk : c = key a
    · have hnil : as.filter (fun b => decide (c = key b)) = [] := by
        rw [List.filter_eq_nil_iff]
        intro b hb
        simp only [decide_eq_true_eq]
        intro hbc
        exact ha (by rw [← hk, hbc]; exact List.mem_map_of_mem key hb)
      rw [if_pos (by simp [hk]), hnil]
      simp
    · rw [if_neg (by simpa using hk)]
      exact ih has

lemma mem_leftJoin_of_no_match (L R : Table) (lk rk : List String) (lr : List Cell)
    (h1 : lr ∈ L.rows)
    (h2 : R.rows.filter (fun rr =>
        decide (lk.map (cellOf L.cols lr) = rk.map (cellOf R.cols rr))) = []) :
    lr ++ R.cols.map (fun _ => none) ∈ (leftJoin L R lk rk).rows := by
  simp only [leftJoin]
  rw [List.mem_flatMap]
  refine ⟨lr, h1, ?_⟩
  rw [h2]
  simp

lemma leftJoin_length (L R : Table) (lk rk : List String)
    (h : (R.rows.map (fun rr => rk.map (cellOf R.cols rr))).Nodup) :
    (leftJoin L R lk rk).rows.length = L.rows.length := by
  simp only [leftJoin]
  rw [List.length_flatMap]
  apply sum_map_ones
  intro lr hlr
  simp only [Function.comp_apply]
  by_cases he : (R.rows.filter (fun rr =>
      decide (lk.map (cellOf L.cols lr) = rk.map (cellOf R.cols rr)))).isEmpty
  · simp [he]
  · rw [if_neg (by simpa using he), List.length_map]
    have hle := filter_eq_key_length_le_one
      (fun rr => rk.map (cellOf R.cols rr)) R.rows h (lk.map (cellOf L.cols lr))
    have hpos : 0 < (R.rows.filter (fun rr =>
        decide (lk.map (cellOf L.cols lr) = rk.map (cellOf R.cols rr)))).length := by
      rcases Nat.eq_zero_or_pos (R.rows.filter (fun rr =>
          decide (lk.map (cellOf L.cols lr) = rk.map (cellOf R.cols rr)))).length with h0 | h0
      · exact absurd (List.isEmpty_iff.mpr (List.length_eq_zero.mp h0)) (by simpa using he)
      · exact h0
    omega

/-- Claim C1: gdp_co2 is a left outer join of the grouped-and-pivoted
emissions table with the long GDP table on (state-name, period) =
(GeoName, Year): a pivoted emissions row with no matching GDP row
appears in the output padded with missing cells for every GDP column
(null GDP), and when the GDP table's (GeoName, Year) key tuples are
duplicate-free the output has exactly one row per pivoted emissions
row. -/
theorem gdp_co2_left_join (t gdp : Table) :
    (∀ r ∈ (emissionsPivot t).rows,
        gdp.rows.filter (fun rr =>
          decide (["state-name", "period"].map (cellOf (emissionsPivot t).cols r)
            = ["GeoName", "Year"].map (cellOf gdp.cols rr))) = [] →
        r ++ gdp.cols.map (fun _ => none) ∈ (gdp_co2 t gdp).rows)
    ∧ ((gdp.rows.map (fun rr => ["GeoName", "Year"].map (cellOf gdp.cols rr))).Nodup →
        (gdp_co2 t gdp).rows.length = (emissionsPivot t).rows.length) := by
  constructor
  · intro r hr hfil
    exact mem_leftJoin_of_no_match _ _ _ _ r hr hfil
  · intro hnd
    exact leftJoin_length _ _ _ _ hnd

/-- Witness for C1: a 2020 Ohio emissions row against a GDP table whose
only row is Texas, so the join pads with nulls and keeps one row. -/
theorem gdp_co2_left_join_witness :
    ([some (Val.num 2020), some (Val.str "Ohio"), some (Val.num 5)]
        ++ tGdpTex.cols.map (fun _ => none) ∈ (gdp_co2 tEmOhio tGdpTex).rows)
    ∧ (gdp_co2 tEmOhio tGdpTex).rows.length = (emissionsPivot tEmOhio).rows.length :=
  ⟨(gdp_co2_left_join tEmOhio tGdpTex).1
      [some (Val.num 2020), some (Val.str "Ohio"), some (Val.num 5)]
      (by decide) (by decide),
   (gdp_co2_left_join tEmOhio tGdpTex).2 (by decide)⟩

lemma mapM_eq_some_map {α β : Type} (f : α → Option β) (d : β) (l : List α)
    (h : ∀ x ∈ l, (f x).isSome = true) :
    l.mapM f = some (l.map (fun x => (f x).getD d)) := by
  induction l with
  | nil => rfl
  | cons a as ih =>
    rw [List.mapM_cons]
    obtain ⟨b, hb⟩ := Option.isSome_iff_exists.mp (h a (List.mem_cons_self _ _))
    rw [hb, ih (fun x hx => h x (List.mem_cons_of_mem _ hx))]
    simp [hb]

lemma mapM_eq_none {α β : Type} (f : α → Option β) (l : List α) (x : α)
    (hx : x ∈ l) (hfx : f x = none) : l.mapM f = none := by
  induction l with
  | nil => simp at hx
  | cons a as ih =>
    rw [List.mapM_cons]
    rcases List.mem_cons.mp hx with h | h
    · rw [← h, hfx]
      rfl
    · cases hfa : f a with
      | none => rfl
      | some b => rw [ih h]; rfl

lemma parseYearRow_isSome_of_melt (t : Table)
    (hparse : ∀ p ∈ valueCols t, (pyInt p.2).isSome = true) :
    ∀ q ∈ meltRows t, (parseYearRow q).isSome = true := by
  intro q hq
  obtain ⟨p, hp, hq2⟩ := List.mem_flatMap.mp hq
  obtain ⟨r, _, hr2⟩ := List.mem_map.mp hq2
  rw [← hr2]
  simpa [parseYearRow] using hparse p hp

lemma meltRows_length (t : Table) :
    (meltRows t).length = (valueCols t).length * t.rows.length := by
  rw [meltRows, List.length_flatMap]
  have : List.map (List.length ∘ fun p : ℕ × String =>
      t.rows.map (fun r =>
        [cellOf t.cols r "GeoName", some (Val.str p.2), r.getD p.1 none]))
      (valueCols t) = List.map (fun _ => t.rows.length) (valueCols t) := by
    apply List.map_congr_left
    intro p _
    simp
  rw [this, List.map_const', List.sum_replicate, smul_eq_mul]

/-- Claim C3 (amended): gdp_reshape melts every non-id column to long
form — one output row per (input row, non-id column) pair, with the
year label cast to an integer — and when the id values are pairwise
distinct and the parsed year labels are pairwise distinct this gives
exactly one output row per (id value, year) pair; the spec's
California/Texas table melts to exactly the four claimed rows (as a
permutation: pandas emits them column-major). -/
theorem gdp_reshape_melt (t : Table)
    (hg : "GeoName" ∈ t.cols)
    (hparse : ∀ p ∈ valueCols t, (pyInt p.2).isSome = true) :
    ∃ m, gdp_reshape t = .ok m
      ∧ m.cols = ["GeoName", "Year", "GDP"]
      ∧ m.rows.length = (valueCols t).length * t.rows.length
      ∧ (∀ r ∈ t.rows, ∀ p ∈ valueCols t,
          [cellOf t.cols r "GeoName", some (Val.num ((pyInt p.2).getD 0)),
           r.getD p.1 none] ∈ m.rows)
      ∧ ((t.rows.map (fun r => cellOf t.cols r "GeoName")).Nodup →
          ((valueCols t).map (fun p => pyInt p.2)).Nodup →
          (m.rows.map (fun r => r.take 2)).Nodup)
      ∧ (gdp_reshape tCalTex = .ok
          { cols := ["GeoName", "Year", "GDP"],
            rows := [[some (.str "California"), some (.num 2017), some (.num 100)],
                     [some (.str "Texas"), some (.num 2017), some (.num 90)],
                     [some (.str "California"), some (.num 2018), some (.num 110)],
                     [some (.str "Texas"), some (.num 2018), some (.num 95)]] }
        ∧ List.Perm
            [[some (Val.str "California"), some (Val.num 2017), some (Val.num 100)],
             [some (Val.str "Texas"), some (Val.num 2017), some (Val.num 90)],
             [some (Val.str "California"), some (Val.num 2018), some (Val.num 110)],
             [some (Val.str "Texas"), some (Val.num 2018), some (Val.num 95)]]
            [[some (Val.str "California"), some (Val.num 2017), some (Val.num 100)],
             [some (Val.str "California"), some (Val.num 2018), some (Val.num 110)],
             [some (Val.str "Texas"), some (Val.num 2017), some (Val.num 90)],
             [some (Val.str "Texas"), some (Val.num 2018), some (Val.num 95)]]) := by
  have hsome := parseYearRow_isSome_of_melt t hparse
  refine ⟨{ cols := ["GeoName", "Year", "GDP"],
            rows := (meltRows t).map (fun q => (parseYearRow q).getD []) },
          ?_, rfl, ?_, ?_, ?_, by decide, by decide⟩
  · rw [gdp_reshape, if_pos hg, mapM_eq_some_map parseYearRow [] _ hsome]
  · rw [List.length_map, meltRows_length]
  · intro r hr p hp
    have hq : [cellOf t.cols r "GeoName", some (Val.str p.2), r.getD p.1 none]
        ∈ meltRows t :=
      List.mem_flatMap.mpr ⟨p, hp, List.mem_map_of_mem _ hr⟩
    obtain ⟨y, hy⟩ := Option.isSome_iff_exists.mp (hparse p hp)
    have : (parseYearRow [cellOf t.cols r "GeoName", some (Val.str p.2),
        r.getD p.1 none]).getD []
        = [cellOf t.cols r "GeoName", some (Val.num ((pyInt p.2).getD 0)),
           r.getD p.1 none] := by
      simp [parseYearRow, hy]
    exact this ▸ List.mem_map_of_mem _ hq
  · intro hid hyear
    rw [List.map_map, meltRows, List.map_flatMap]
    have hrw : ∀ p ∈ valueCols t,
        List.map ((fun r => r.take 2) ∘ fun q => (parseYearRow q).getD [])
          (t.rows.map (fun r =>
            [cellOf t.cols r "GeoName", some (Val.str p.2), r.getD p.1 none]))
        = (t.rows.map (fun r => cellOf t.cols r "GeoName")).map
            (fun g => [g, some (Val.num ((pyInt p.2).getD 0))]) := by
      intro p hp
      obtain ⟨y, hy⟩ := Option.isSome_iff_exists.mp (hparse p hp)
      rw [List.map_map, List.map_map]
      apply List.map_congr_left
      intro r _
      simp [parseYearRow, hy]
    rw [List.nodup_flatMap]
    constructor
    · intro p hp
      rw [hrw p hp]
      refine List.Nodup.map ?_ hid
      intro a b hab
      simpa using hab
    · have hpair : (valueCols t).Pairwise
          (fun p q => pyInt p.2 ≠ pyInt q.2) :=
        List.pairwise_map.mp hyear
      refine List.Pairwise.imp_of_mem ?_ hpair
      intro p q hp hq hne
      simp only [Function.onFun]
      rw [hrw p hp, hrw q hq]
      intro x hxp hxq
      obtain ⟨g1, _, hg1⟩ := List.mem_map.mp hxp
      obtain ⟨g2, _, hg2⟩ := List.mem_map.mp hxq
      obtain ⟨y1, hy1⟩ := Option.isSome_iff_exists.mp (hparse p hp)
      obtain ⟨y2, hy2⟩ := Option.isSome_iff_exists.mp (hparse q hq)
      rw [← hg2] at hg1
      have hyy : ((pyInt p.2).getD 0) = ((pyInt q.2).getD 0) := by
        have := List.cons.inj hg1
        simpa using this.2
      apply hne
      rw [hy1, hy2] at hyy
      simp only [Option.getD_some] at hyy
      rw [hy1, hy2, hyy]

/-- Counterexample to C3 as stated: on a wide table whose id column
repeats a value (two California rows), the melt produces two output
rows for the single (id value, year) pair (California, 2017), not
exactly one output row per (id value, year) pair. -/
theorem gdp_reshape_one_row_counterexample :
    (gdp_reshape tDupId).toOption.map
      (fun m => (m.rows.map (fun r => r.take 2)).count
        [some (Val.str "California"), some (Val.num 2017)]) = some 2 := by decide

/-- Witness for C3 at the spec's California/Texas table. -/
theorem gdp_reshape_melt_witness :
    ∃ m, gdp_reshape tCalTex = .ok m ∧ m.cols = ["GeoName", "Year", "GDP"]
      ∧ m.rows.length = (valueCols tCalTex).length * tCalTex.rows.length := by
  obtain ⟨m, h1, h2, h3, _⟩ := gdp_reshape_melt tCalTex (by decide) (by decide)
  exact ⟨m, h1, h2, h3⟩

/-- Claim C4 (amended): on a wide table that has the GeoName id column
and at least one row, an unparseable non-id column label makes
gdp_reshape fail with the malformed-data error (the ValueError of
`astype(int)`), not succeed and not fail differently.  The claim as
stated fails for zero-row tables (nothing to cast, so pandas succeeds)
and for tables without the id column (pandas melt raises KeyError
first). -/
theorem gdp_reshape_malformed (t : Table)
    (hg : "GeoName" ∈ t.cols) (hrows : t.rows ≠ [])
    (hbad : ∃ p ∈ valueCols t, pyInt p.2 = none) :
    gdp_reshape t = .error Err.malformedData := by
  obtain ⟨p, hp, hnone⟩ := hbad
  obtain ⟨r, hr⟩ : ∃ r, r ∈ t.rows := by
    cases h : t.rows with
    | nil => exact absurd h hrows
    | cons a as => exact ⟨a, h ▸ List.mem_cons_self a as⟩
  have hq : [cellOf t.cols r "GeoName", some (Val.str p.2), r.getD p.1 none]
      ∈ meltRows t :=
    List.mem_flatMap.mpr ⟨p, hp, List.mem_map_of_mem _ hr⟩
  have hfq : parseYearRow
      [cellOf t.cols r "GeoName", some (Val.str p.2), r.getD p.1 none] = none := by
    simp [parseYearRow, hnone]
  rw [gdp_reshape, if_pos hg, mapM_eq_none _ _ _ hq hfq]

/-- Counterexample to C4 as stated: the table tEmptyBad has the non-id
column "abc" whose label is not integer-parseable, yet gdp_reshape
succeeds because the table has no rows (there are no melted year cells
for `astype(int)` to reject); and on tNoGeo, which also carries the bad
label "abc" but lacks the GeoName id column, gdp_reshape fails with the
configuration error (pandas KeyError), not MalformedDataError. -/
theorem gdp_reshape_malformed_counterexample :
    gdp_reshape tEmptyBad = .ok { cols := ["GeoName", "Year", "GDP"], rows := [] }
    ∧ pyInt "abc" = none ∧ "abc" ∈ tEmptyBad.cols
    ∧ gdp_reshape tNoGeo = .error Err.configuration := by decide

/-- Witness for C4 at a one-row table with the bad label "abc". -/
theorem gdp_reshape_malformed_witness :
    gdp_reshape tBadLabel = .error Err.malformedData :=
  gdp_reshape_malformed tBadLabel (by decide) (by decide) (by decide)

lemma cellOf_mapPeriodRow_ne (cols : List String) (r : List Cell) (c : String)
    (hc : c ≠ "period") :
    cellOf cols (mapPeriodRow cols r) c = cellOf cols r c := by
  induction cols generalizing r with
  | nil => simp [mapPeriodRow, cellOf]
  | cons c' cs ih =>
    cases r with
    | nil => simp [mapPeriodRow, cellOf]
    | cons x xs =>
      simp only [mapPeriodRow, cellOf]
      by_cases h1 : c' = c
      · subst h1
        simp [hc]
      · rw [if_neg h1, if_neg h1]
        exact ih xs

lemma cellOf_mapPeriodRow_period (cols : List String) (r : List Cell) :
    cellOf cols (mapPeriodRow cols r) "period" = toDatetimeY (cellOf cols r "period") := by
  induction cols generalizing r with
  | nil => simp [mapPeriodRow, cellOf, toDatetimeY]
  | cons c' cs ih =>
    cases r with
    | nil => simp [mapPeriodRow, cellOf, toDatetimeY]
    | cons x xs =>
      simp only [mapPeriodRow, cellOf]
      by_cases h1 : c' = "period"
      · rw [if_pos h1, if_pos h1, if_pos h1]
      · rw [if_neg h1, if_neg h1]
        exact ih xs

lemma cluster_obs_recover_rows (cols : List String) (hcl : "Cluster" ∉ cols) :
    ∀ (rows : List (List Cell)) (ls : List ℤ),
      (∀ r ∈ rows, r.length = cols.length) → ls.length = rows.length →
      (List.zipWith (fun r l => r ++ [some (Val.num l)]) rows ls).map
        (fun r => (((cols ++ ["Cluster"]).zip r).filter
          (fun p => !(Excl.mem (.names ["Cluster"]) p.1))).map (fun p => p.2))
      = rows := by
  intro rows
  induction rows with
  | nil =>
    intro ls _ _
    simp
  | cons r rs ih =>
    intro ls hrect hlen
    cases ls with
    | nil => simp at hlen
    | cons l ls2 =>
      simp only [List.zipWith_cons_cons, List.map_cons]
      congr 1
      · rw [List.zip_append (hrect r (List.mem_cons_self _ _)).symm]
        rw [List.filter_append]
        have hone : (["Cluster"].zip [some (Val.num l)]).filter
            (fun p => !(Excl.mem (.names ["Cluster"]) p.1)) = [] := by
          simp [Excl.mem]
        rw [hone, List.append_nil]
        rw [List.filter_eq_self.mpr ?keep, List.map_snd_zip]
        · rw [hrect r (List.mem_cons_self _ _)]
        case keep =>
          intro p hp
          have hp1 : p.1 ∈ cols := (List.of_mem_zip hp).1
          have hne : p.1 ≠ "Cluster" := fun h => hcl (h ▸ hp1)
          simp [Excl.mem, hne, Ne.symm hne]
      · exact ih ls2 (fun a ha => hrect a (List.mem_cons_of_mem _ ha))
          (by simpa using hlen)

/-- Counterexample to C9 as stated: two pipeline stages mutate the
table object given to them.  Prepped.value_time executes
`self.df["period"] = pd.to_datetime(self.df["period"], format="%Y")`,
overwriting the period column of the caller's DataFrame in place, and
ModelBuilder.state_fuel_cluster executes `df["Cluster"] = clusters` on
the caller's DataFrame; on the concrete table tPeriod the observable
contents after either call differ from the input. -/
theorem value_time_mutation_counterexample :
    value_time_obs tPeriod ≠ tPeriod
    ∧ state_fuel_cluster_obs [0] tPeriod ≠ tPeriod := by decide

/-- Claim C9 (amended): the DataPrep cleaning/filtering/reshaping
stages produce fresh tables (`self.df = ...` rebinding) and leave the
caller's table unchanged, but Prepped.value_time and
ModelBuilder.state_fuel_cluster mutate the table given to them in
place.  The mutations are exactly these: value_time keeps the column
list and every non-period column unchanged and overwrites the period
column with its to_datetime image, and state_fuel_cluster only appends
a Cluster column — deleting that column restores the input table
exactly. -/
theorem pipeline_mutation_frame :
    (∀ t : Table, (value_time_obs t).cols = t.cols)
    ∧ (∀ (t : Table) (c : String), c ≠ "period" →
        colCells (value_time_obs t) c = colCells t c)
    ∧ (∀ t : Table,
        colCells (value_time_obs t) "period" = (colCells t "period").map toDatetimeY)
    ∧ (∀ (t : Table) (ls : List ℤ), "Cluster" ∉ t.cols →
        (∀ r ∈ t.rows, r.length = t.cols.length) → ls.length = t.rows.length →
        delete_columns (.names ["Cluster"]) (state_fuel_cluster_obs ls t) = t) := by
  refine ⟨fun t => rfl, ?_, ?_, ?_⟩
  · intro t c hc
    simp only [colCells, value_time_obs]
    rw [List.map_map]
    apply List.map_congr_left
    intro r _
    exact cellOf_mapPeriodRow_ne t.cols r c hc
  · intro t
    simp only [colCells, value_time_obs]
    rw [List.map_map, List.map_map]
    apply List.map_congr_left
    intro r _
    exact cellOf_mapPeriodRow_period t.cols r
  · intro t ls hcl hrect hlen
    rcases t with ⟨cols, rows⟩
    simp only [delete_columns, state_fuel_cluster_obs]
    congr 1
    · rw [List.filter_append]
      have h2 : ["Cluster"].filter (fun c => !(Excl.mem (.names ["Cluster"]) c)) = [] := by
        simp [Excl.mem]
      rw [h2, List.append_nil]
      rw [List.filter_eq_self]
      intro c hc
      have hne : c ≠ "Cluster" := fun h => hcl (h ▸ hc)
      simp [Excl.mem, hne, Ne.symm hne]
    · exact cluster_obs_recover_rows cols hcl rows ls hrect hlen

/-- Witness for C9 on the concrete table tPeriod. -/
theorem pipeline_mutation_frame_witness :
    colCells (value_time_obs tPeriod) "value" = colCells tPeriod "value"
    ∧ delete_columns (.names ["Cluster"]) (state_fuel_cluster_obs [3] tPeriod)
        = tPeriod :=
  ⟨pipeline_mutation_frame.2.1 tPeriod "value" (by decide),
   pipeline_mutation_frame.2.2.2 tPeriod [3] (by decide) (by decide) (by decide)⟩

lemma sum_map_div (l : List ℝ) (f : ℝ → ℝ) (c : ℝ) :
    (l.map (fun x => f x / c)).sum = (l.map f).sum / c := by
  induction l with
  | nil => simp
  | cons a as ih => simp [ih, add_div]

lemma sum_map_sub (l : List ℝ) (μ : ℝ) :
    (l.map (fun x => x - μ)).sum = l.sum - l.length * μ := by
  induction l with
  | nil => simp
  | cons a as ih =>
    simp only [List.map_cons, List.sum_cons, List.length_cons]
    rw [ih]
    push_cast
    ring

lemma listMean_standardize (xs : List ℝ) : listMean (standardize xs) = 0 := by
  rcases eq_or_ne xs [] with h | h
  · subst h
    simp [standardize, listMean]
  · have hn : (xs.length : ℝ) ≠ 0 :=
      Nat.cast_ne_zero.mpr (List.length_pos.mpr h).ne'
    unfold listMean standardize
    rw [List.length_map,
      sum_map_div xs (fun x => x - listMean xs) (Real.sqrt (listVar xs)),
      sum_map_sub]
    unfold listMean
    have hz : xs.sum - (xs.length : ℝ) * (xs.sum / (xs.length : ℝ)) = 0 := by
      field_simp
    rw [hz, zero_div, zero_div]

lemma listVar_pos_ne_nil (xs : List ℝ) (h : 0 < listVar xs) : xs ≠ [] := by
  intro hnil
  subst hnil
  simp [listVar] at h

lemma listVar_standardize (xs : List ℝ) (h : 0 < listVar xs) :
    listVar (standardize xs) = 1 := by
  have hne : xs ≠ [] := listVar_pos_ne_nil xs h
  have hn : (xs.length : ℝ) ≠ 0 :=
    Nat.cast_ne_zero.mpr (List.length_pos.mpr hne).ne'
  have hv : listVar xs ≠ 0 := ne_of_gt h
  have hs2 : Real.sqrt (listVar xs) ^ 2 = listVar xs := Real.sq_sqrt h.le
  unfold listVar
  rw [listMean_standardize]
  simp only [sub_zero]
  unfold standardize
  rw [List.length_map, List.map_map]
  have hcomp : ((fun y => y ^ 2) ∘ fun x => (x - listMean xs) / Real.sqrt (listVar xs))
      = fun x => ((x - listMean xs) ^ 2) / (Real.sqrt (listVar xs) ^ 2) := by
    funext x
    simp [div_pow]
  rw [hcomp, hs2, sum_map_div xs (fun x => (x - listMean xs) ^ 2) (listVar xs)]
  have hsum : (xs.map (fun x => (x - listMean xs) ^ 2)).sum = listVar xs * xs.length := by
    unfold listVar
    field_simp
  rw [hsum]
  field_simp

lemma colAt_fitTransform (m : List (List ℝ)) (w j : ℕ)
    (hw : ∀ r ∈ m, r.length = w) (hj : j < w) :
    colAt (fitTransform m) j = standardize (colAt m j) := by
  unfold colAt fitTransform standardize
  rw [List.map_map, List.map_map]
  apply List.map_congr_left
  intro r hr
  simp only [Function.comp_apply]
  rw [hw r hr]
  have hlen : j < ((List.range w).map (fun i => scaleEntry m i (r.getD i 0))).length := by
    simpa using hj
  rw [List.getD_eq_getElem _ _ hlen, List.getElem_map, List.getElem_range]
  simp [scaleEntry, colAt]

lemma standardize_of_var_zero (xs : List ℝ) (h : listVar xs = 0) :
    standardize xs = List.replicate xs.length 0 := by
  unfold standardize
  rw [h, Real.sqrt_zero]
  have hz : (fun x => (x - listMean xs) / 0) = fun _ : ℝ => (0 : ℝ) := by
    funext x
    rw [div_zero]
  rw [hz, List.map_const']

/-- Claim C8 (amended): on every rectangular feature frame,
state_fuel_cluster standardizes each feature column (the columns from
position 2 on) before clustering — every feature column of the matrix
handed to the clusterer is centered to zero mean, every feature column
with positive variance moreover has unit variance, and a zero-variance
(constant) feature column is only centered, scaling to the all-zero
column — and, for any clusterer meeting the sklearn fit_predict
contract (one label per row, labels below the requested k), every
input row receives exactly one integer cluster id in [0, 5),
regardless of the columns' variances. -/
theorem state_fuel_cluster_spec (fp : ℕ → List (List ℝ) → List ℕ) (t : FrameR)
    (hfp : ∀ (k : ℕ) (d : List (List ℝ)), 0 < k →
      (fp k d).length = d.length ∧ ∀ l ∈ fp k d, l < k)
    (hrect : ∀ r ∈ t.rows, r.length = t.cols.length) :
    (∀ j < t.cols.length - 2,
        listMean (colAt (fitTransform (t.rows.map (List.drop 2))) j) = 0)
    ∧ (∀ j < t.cols.length - 2,
        0 < listVar (colAt (t.rows.map (List.drop 2)) j) →
        listVar (colAt (fitTransform (t.rows.map (List.drop 2))) j) = 1)
    ∧ (∀ j < t.cols.length - 2,
        listVar (colAt (t.rows.map (List.drop 2)) j) = 0 →
        colAt (fitTransform (t.rows.map (List.drop 2))) j
          = List.replicate t.rows.length 0)
    ∧ (fp 5 (fitTransform (t.rows.map (List.drop 2)))).length = t.rows.length
    ∧ (∀ l ∈ fp 5 (fitTransform (t.rows.map (List.drop 2))), l < 5)
    ∧ (state_fuel_cluster fp t).rows
        = List.zipWith (fun r (c : ℕ) => r ++ [(c : ℝ)]) t.rows
            (fp 5 (fitTransform (t.rows.map (List.drop 2))))
    ∧ (state_fuel_cluster fp t).rows.length = t.rows.length := by
  have hw : ∀ r ∈ t.rows.map (List.drop 2), r.length = t.cols.length - 2 := by
    intro r hr
    obtain ⟨a, ha, rfl⟩ := List.mem_map.mp hr
    rw [List.length_drop, hrect a ha]
  have hlen5 := (hfp 5 (fitTransform (t.rows.map (List.drop 2))) (by norm_num)).1
  have hflen : (fitTransform (t.rows.map (List.drop 2))).length = t.rows.length := by
    simp [fitTransform]
  refine ⟨?_, ?_, ?_, by rw [hlen5, hflen], (hfp 5 _ (by norm_num)).2, rfl, ?_⟩
  · intro j hj
    rw [colAt_fitTransform _ (t.cols.length - 2) j hw hj]
    exact listMean_standardize _
  · intro j hj hv
    rw [colAt_fitTransform _ (t.cols.length - 2) j hw hj]
    exact listVar_standardize _ hv
  · intro j hj hv0
    rw [colAt_fitTransform _ (t.cols.length - 2) j hw hj,
      standardize_of_var_zero _ hv0]
    congr 1
    simp [colAt]
  · simp only [state_fuel_cluster]
    rw [List.length_zipWith, hlen5, hflen]
    exact Nat.min_self _

/-- Counterexample to C8 as stated: on the feature frame frameConst,
whose first feature column is the constant column [1, 1], the matrix
handed to the clusterer has variance 0 in that column, not the claimed
unit variance (StandardScaler only centers a zero-variance column; in
this model the division-by-zero convention yields the same all-zero
column as sklearn's zero-scale guard). -/
theorem state_fuel_cluster_counterexample :
    listVar (colAt (fitTransform (frameConst.rows.map (List.drop 2))) 0) = 0
    ∧ listVar (colAt (fitTransform (frameConst.rows.map (List.drop 2))) 0) ≠ 1 := by
  have hm : frameConst.rows.map (List.drop 2) = [[1, 0], [1, 2]] := by
    norm_num [frameConst]
  have hcol : colAt (fitTransform (frameConst.rows.map (List.drop 2))) 0 = [0, 0] := by
    rw [hm]
    norm_num [fitTransform, colAt, scaleEntry, listMean, List.range_succ]
  rw [hcol]
  norm_num [listVar, listMean]

/-- Witness for C8 at the concrete frame frameConst — whose first
feature column is constant and whose second has positive variance —
and the constant-zero clusterer fpEx (which satisfies the sklearn
fit_predict contract): the positive-variance column is standardized to
zero mean and unit variance, the constant column scales to the
all-zero column, and every row still receives a cluster label. -/
theorem state_fuel_cluster_spec_witness :
    (listMean (colAt (fitTransform (frameConst.rows.map (List.drop 2))) 1) = 0
      ∧ listVar (colAt (fitTransform (frameConst.rows.map (List.drop 2))) 1) = 1)
    ∧ colAt (fitTransform (frameConst.rows.map (List.drop 2))) 0
        = List.replicate frameConst.rows.length 0
    ∧ (state_fuel_cluster fpEx frameConst).rows.length = frameConst.rows.length := by
  have hfp : ∀ (k : ℕ) (d : List (List ℝ)), 0 < k →
      (fpEx k d).length = d.length ∧ ∀ l ∈ fpEx k d, l < k := by
    intro k d hk
    refine ⟨by simp [fpEx], ?_⟩
    intro l hl
    simp only [fpEx, List.mem_map] at hl
    obtain ⟨_, _, rfl⟩ := hl
    omega
  have hrect : ∀ r ∈ frameConst.rows, r.length = frameConst.cols.length := by
    intro r hr
    simp only [frameConst, List.mem_cons, List.not_mem_nil, or_false] at hr
    rcases hr with rfl | rfl <;> norm_num [frameConst]
  have hm : frameConst.rows.map (List.drop 2) = [[1, 0], [1, 2]] := by
    norm_num [frameConst]
  have h := state_fuel_cluster_spec fpEx frameConst hfp hrect
  refine ⟨⟨h.1 1 (by norm_num [frameConst]), h.2.1 1 (by norm_num [frameConst]) ?_⟩,
    h.2.2.1 0 (by norm_num [frameConst]) ?_, h.2.2.2.2.2.2⟩
  · rw [hm]
    norm_num [colAt, listVar, listMean]
  · rw [hm]
    norm_num [colAt, listVar, listMean]
